import Mathlib

/-!
Verification development for the database-safe-layer repository
(package db_safe_layer): a guarded SQL execution pipeline.

We give a shallow embedding of the pieces of the source that the
specification's claims are about:

* utils/risk_policy.py        : analyze_risk
* utils/sqlglot_utils.py      : is_read_only
* utils/sqlglot_helper.py     : extract_sql_details (top-level where clause)
* execution/executor.py       : rewrite_to_count, run_dry_estimate,
                                execute_sql_with_safety
* utils/snapshot_manager.py   : create_snapshot_for_operation
* audit/replay.py             : replay
* db/snapshot.py              : rollback_to_snapshot
* db/database.py              : DatabaseManager.session (transactional scope)

SQL statements are represented by the outcome of sqlglot.parse_one: either
a parse failure (none) or an abstract syntax node.  The node type mirrors
exactly the sqlglot node kinds the Python code dispatches on with
isinstance, together with the fields the code reads from those nodes.
-/

namespace DbSafeLayer

/-- Abstract syntax node, mirroring the sqlglot node kinds that the code
dispatches on.  For UPDATE and DELETE, whereArg models the node's own
top-level where argument (args.get of where) and nestedWhere records
whether any further Where node occurs deeper in the tree (inside
subqueries), so that the recursive search expression.find of exp.Where
succeeds iff whereArg.isSome or nestedWhere. firstTable models the first
Table node found by expression.find of exp.Table. For SELECT, hasOrder
records whether an ORDER BY is attached and whereArg its own where
argument.  An INSERT node carries its target node (args: this) and its
source node (args: expression), which for a literal insert is a Values
node whose rowCount is the number of value tuples; the constructor
absent stands for a missing args entry (Python None), which no
isinstance test matches. -/
inductive SqlExpr where
  | select (hasOrder : Bool) (whereArg : Option String)
  | union
  | insert (thisNode : SqlExpr) (src : SqlExpr)
  | update (firstTable : Option String) (whereArg : Option String) (nestedWhere : Bool)
  | delete (firstTable : Option String) (whereArg : Option String) (nestedWhere : Bool)
  | table (name : String)
  | valuesNode (rowCount : Nat)
  | drop
  | alter
  | create
  | schema
  | merge
  | grant
  | revoke
  | commit
  | rollback
  | analyze
  | comment
  | absent
  | other (className : String)
deriving DecidableEq, Repr

/-- A raw SQL text is represented by its parse outcome: none when
sqlglot.parse_one raises, otherwise the parsed node. -/
abbrev Stmt := Option SqlExpr

/-- expression.find of exp.Where: recursive search over the whole tree
(subqueries included). Only consulted by analyze_risk on Update/Delete. -/
def find_where : SqlExpr → Bool
  | .update _ w nested => w.isSome || nested
  | .delete _ w nested => w.isSome || nested
  | .select _ w => w.isSome
  | _ => false

/-- The top-level where clause of a statement, as the Statement Analyzer
extracts it: extract_sql_details in utils/sqlglot_helper.py reads
expression.args.get of where at the statement's own level, deliberately
avoiding WHERE clauses of subqueries. -/
def where_clause : SqlExpr → Option String
  | .update _ w _ => w
  | .delete _ w _ => w
  | .select _ w => w
  | _ => none

/-- A statement has a filtering predicate when the Analyzer extracts a
top-level where clause for it. -/
def has_predicate (e : SqlExpr) : Bool := (where_clause e).isSome

/-- Result record of analyze_risk in utils/risk_policy.py: the dictionary
with keys risk_level, sql_type, reason. -/
structure RiskInfo where
  risk_level : String
  sql_type : String
  reason : String
deriving DecidableEq, Repr

/-- The isinstance dispatch of analyze_risk in utils/risk_policy.py,
producing the base level, type and reason before row-count escalation. -/
def baseRisk : SqlExpr → RiskInfo
  | .drop => ⟨"CRITICAL", "Drop", "DROP drops structure objects"⟩
  | .alter => ⟨"HIGH", "Alter", "ALTER modifies the database structure"⟩
  | .create => ⟨"HIGH", "Create", "CREATE operations may modify structures"⟩
  | .schema => ⟨"HIGH", "Create", "CREATE operations may modify structures"⟩
  | .select _ _ => ⟨"LOW", "Select", "Read-only query (SELECT)"⟩
  | .insert _ _ => ⟨"MEDIUM", "Insert", "INSERT writes data"⟩
  | .update t w nested =>
      if !find_where (.update t w nested) then
        ⟨"HIGH", "Update", "UPDATE without WHERE may update the entire table"⟩
      else
        ⟨"MEDIUM", "Update", "UPDATE modifies data"⟩
  | .delete t w nested =>
      if !find_where (.delete t w nested) then
        ⟨"HIGH", "Delete", "DELETE without WHERE deletes the entire table"⟩
      else
        ⟨"MEDIUM", "Delete", "DELETE deletes data"⟩
  | .merge => ⟨"HIGH", "Merge", "MERGE high-risk write operation"⟩
  | .grant => ⟨"HIGH", "Grant", "GRANT modifies permissions"⟩
  | .revoke => ⟨"HIGH", "Revoke", "REVOKE reclaims permissions"⟩
  | .commit => ⟨"INFO", "Commit", "Transaction Commit"⟩
  | .rollback => ⟨"INFO", "Rollback", "Transaction rollback"⟩
  | .analyze => ⟨"MEDIUM", "Analyze", "ANALYZE collects statistics"⟩
  | .comment => ⟨"LOW", "Comment", "comment statement"⟩
  | _ => ⟨"unknown", "unknown", "Unrecognized SQL type"⟩

/-- analyze_risk in utils/risk_policy.py: the isinstance dispatch followed
by the row-count escalation.  The escalation is transcribed exactly as in
the source: when estimated_rows exceeds 10000 the level is replaced by
the string medium only when it equals the string low, in lowercase, even
though every level the dispatch assigns is uppercase. -/
def analyze_risk (expression : SqlExpr) (estimated_rows : Option Int) : RiskInfo :=
  let info := baseRisk expression
  match estimated_rows with
  | none => info
  | some n =>
      if n > 10000 then
        { info with risk_level := if info.risk_level == "low" then "medium" else info.risk_level }
      else
        info

/-- is_read_only in utils/sqlglot_utils.py: parse the SQL and test
isinstance of exp.Select; a parse failure is conservatively treated as
not read-only.  The function is total: every exception is caught. -/
def is_read_only : Stmt → Bool
  | some (.select _ _) => true
  | _ => false

/-- The counting probe SQL produced by rewrite_to_count: either a
COUNT over a wrapped subquery, a COUNT over a table with an optional
WHERE, or a constant literal select with no FROM clause. -/
inductive Probe where
  | countSubquery (inner : SqlExpr)
  | countTable (tbl : String) (whereArg : Option String)
  | constSelect (n : Nat)
deriving DecidableEq, Repr

/-- Spec-side notion: whether executing the probe performs a database
round-trip against any table.  A constant literal select references no
table at all. -/
def Probe.touchesTable : Probe → Bool
  | .constSelect _ => false
  | _ => true

/-- expression.set of order to None, applied by rewrite_to_count before
wrapping a SELECT (removal of ORDER BY); only Select nodes are changed. -/
def removeOrder : SqlExpr → SqlExpr
  | .select _ w => .select false w
  | e => e

/-- rewrite_to_count in execution/executor.py.  The input is the parse
outcome of the raw SQL (the function parses internally and catches every
exception, returning None).  Branches, in source order: Select/Union are
wrapped as a counted subquery (ORDER BY removed for Select); Delete and
Update become a COUNT over the found target table with the optional
where argument; an Insert whose source argument is a Values node becomes
a constant select of the literal row count, and otherwise an Insert
whose target node (args: this) is a Select is wrapped as a counted
subquery; every other shape returns None. -/
def rewrite_to_count : Stmt → Option Probe
  | none => none
  | some e =>
    match e with
    | .select h w => some (.countSubquery (removeOrder (.select h w)))
    | .union => some (.countSubquery .union)
    | .delete t w _ =>
        match t with
        | none => none
        | some tbl => some (.countTable tbl w)
    | .update t w _ =>
        match t with
        | none => none
        | some tbl => some (.countTable tbl w)
    | .insert thisNode src =>
        match src with
        | .valuesNode n => some (.constSelect n)
        | _ =>
            match thisNode with
            | .select h w => some (.countSubquery (.select h w))
            | _ => none
    | _ => none

/-- run_dry_estimate in execution/executor.py.  dbEval models executing
the generated count SQL through run_sql and reading the estimated_rows
column of the first result row; none models an execution failure or a
missing value, in which case the function falls back to -1.  When no
probe could be generated the estimate is -1 with no probe. -/
def run_dry_estimate (stmt : Stmt) (dbEval : Probe → Option Int) : Int × Option Probe :=
  match rewrite_to_count stmt with
  | none => (-1, none)
  | some p =>
      match dbEval p with
      | some v => (v, some p)
      | none => (-1, some p)

/-- One audit step record appended by execute_sql_with_safety (the keys
the claims are about: step_id, action, status, error, and the
snapshot_id recorded in the step's outputs). -/
structure Step where
  step_id : String
  action : String
  status : String
  error : Option String := none
  out_snapshot_id : Option String := none
deriving DecidableEq, Repr

/-- One invocation of run_sql against the live database: either a
generated count probe (from run_dry_estimate) or the raw submitted SQL
statement itself. -/
inductive DbCall where
  | probe (p : Probe)
  | raw
deriving DecidableEq, Repr

/-- The environment a single call of execute_sql_with_safety runs in:
the parse outcome of the raw SQL, the database's answer to count probes,
the outcome of executing the raw statement, the operator's answer at the
confirmation gate, whether create_snapshot succeeds, and the timestamp
that names the snapshot. -/
structure ExecEnv where
  parsed : Stmt
  dbEval : Probe → Option Int
  rawExec : Except String Nat
  userConfirm : Bool
  snapshotOk : Bool
  ts : String

/-- The observable outcome of one pipeline run: the computed risk level,
the snapshot id recorded in the run, the audit steps in order, every
run_sql invocation in order, and the contents of the snapshot store
after the run (the ids of the snapshot files persisted on disk). -/
structure RunOutput where
  risk : String
  snapshot_id : Option String
  audit_steps : List Step
  calls : List DbCall
  store : List String
deriving Repr

/-- The snapshot id generated by create_snapshot_for_operation from the
timestamp. -/
def genSnapshotId (ts : String) : String := "SNAPSHOT_" ++ ts

/-- create_snapshot_for_operation in utils/snapshot_manager.py: generate
the id, attempt create_snapshot, and return the id in both outcomes: on
success the snapshot file is persisted (the id enters the store), on
failure the exception is swallowed and the bare id is still returned
while nothing is persisted (the source comment reads: still return ID
even if snapshot creation fails). -/
def create_snapshot_for_operation (ok : Bool) (ts : String) (store : List String) :
    String × List String :=
  if ok then (genSnapshotId ts, store ++ [genSnapshotId ts])
  else (genSnapshotId ts, store)

/-- Step 1 (precheck) as recorded on the non-raising path. -/
def precheckStep : Step := { step_id := "step 1", action := "precheck", status := "success" }

/-- Step 2 (dry_run) as recorded on the non-raising path. -/
def dryStep : Step := { step_id := "step 2", action := "dry_run", status := "success" }

/-- Step 3 (analyze_risk) as recorded on the non-raising path. -/
def riskStep : Step := { step_id := "step 3", action := "analyze_risk", status := "success" }

/-- The execute_sql step for a given raw-execution outcome. -/
def execStep (stepId : String) (rawExec : Except String Nat) : Step :=
  { step_id := stepId, action := "execute_sql",
    status := match rawExec with | .ok _ => "success" | .error _ => "error",
    error := match rawExec with | .ok _ => none | .error e => some e }

/-- The refusal step recorded when the risk level is UNKNOWN: an
execute_sql step marked error whose error field carries the refusal
reason; run_sql is not invoked. -/
def refusedStep : Step :=
  { step_id := "step 4", action := "execute_sql", status := "error",
    error := some "Unrecognized SQL type, execution refused" }

/-- The User_confirmation step recorded when the operator declines. -/
def cancelStep : Step :=
  { step_id := "step 4", action := "User_confirmation", status := "cancelled" }

/-- The User_confirmation step recorded when the operator approves. -/
def confirmOkStep : Step :=
  { step_id := "step 4", action := "User_confirmation", status := "success" }

/-- The create_snapshot step.  Its status is success whenever
create_snapshot_for_operation returned (it swallows its own failures)
and the returned id is recorded in the step's outputs. -/
def snapshotStep (sid : String) : Step :=
  { step_id := "step 5", action := "create_snapshot", status := "success",
    out_snapshot_id := some sid }

/-- The risk dictionary the pipeline computes in steps 1 to 3: on a parse
failure the default UNKNOWN dictionary, otherwise analyze_risk applied
to the parsed node and the dry-run estimate (always passed as an int,
-1 standing for unavailable). -/
def computeRiskInfo (env : ExecEnv) : RiskInfo :=
  match env.parsed with
  | none => ⟨"UNKNOWN", "UNKNOWN", "SQL Parsing failed"⟩
  | some e => analyze_risk e (some (run_dry_estimate env.parsed env.dbEval).1)

/-- The run_sql invocations made by the dry-run stage: the count probe is
executed exactly when rewrite_to_count produced one. -/
def dryCalls (env : ExecEnv) : List DbCall :=
  match (run_dry_estimate env.parsed env.dbEval).2 with
  | none => []
  | some p => [DbCall.probe p]

/-- execute_sql_with_safety in execution/executor.py.  Steps 1 to 3
(precheck, dry_run, analyze_risk) always run and are recorded; then the
risk level branches exactly as in the source: LOW and INFO execute the
raw statement directly; UNKNOWN (either spelling the source produces) is
refused with no execution; every other level goes through the
confirmation gate, where denial records a cancelled step and stops, and
approval records the confirmation, creates a snapshot through
create_snapshot_for_operation (best effort, the returned id is recorded
either way) and then executes the raw statement. -/
def execute_sql_with_safety (env : ExecEnv) (store0 : List String) : RunOutput :=
  let risk := (computeRiskInfo env).risk_level
  let base := [precheckStep, dryStep, riskStep]
  if risk = "LOW" ∨ risk = "INFO" then
    { risk := risk, snapshot_id := none,
      audit_steps := base ++ [execStep "step 4" env.rawExec],
      calls := dryCalls env ++ [DbCall.raw], store := store0 }
  else if risk = "UNKNOWN" ∨ risk = "unknown" then
    { risk := risk, snapshot_id := none,
      audit_steps := base ++ [refusedStep],
      calls := dryCalls env, store := store0 }
  else if env.userConfirm = false then
    { risk := risk, snapshot_id := none,
      audit_steps := base ++ [cancelStep],
      calls := dryCalls env, store := store0 }
  else
    let sid := (create_snapshot_for_operation env.snapshotOk env.ts store0).1
    let store1 := (create_snapshot_for_operation env.snapshotOk env.ts store0).2
    { risk := risk, snapshot_id := some sid,
      audit_steps := base ++ [confirmOkStep, snapshotStep sid, execStep "step 6" env.rawExec],
      calls := dryCalls env ++ [DbCall.raw], store := store1 }

/-- One audit step of a stored run record, as read back by replay: its
action and, when present, the SQL recorded in its inputs (kept as its
parse outcome). -/
structure StepRec where
  action : String
  input_sql : Option Stmt
deriving Repr

/-- A stored run record as read back by replay: the top-level sql field
(none models a missing or empty value) and the execution_dag list of
steps. -/
structure RunRecord where
  sql : Option Stmt
  execution_dag : List StepRec
deriving Repr

/-- The statement replay recovers: the run's sql field or, failing that,
the inputs sql of the first execute_sql step in the execution_dag. -/
def recover_sql (run : RunRecord) : Option Stmt :=
  match run.sql with
  | some s => some s
  | none => (run.execution_dag.find? (fun st => st.action == "execute_sql")).bind (·.input_sql)

/-- The result of replay: its status string, whether run_sql was invoked
on the recovered statement, and the message carried back. -/
structure ReplayResult where
  status : String
  executed : Bool
  message : Option String := none
deriving Repr

/-- replay in audit/replay.py: recover the statement; report an error
when none is found; block unless is_read_only confirms a pure SELECT;
otherwise re-execute through run_sql, whose outcome is modeled by the
exec argument (error models a raised exception). -/
def replay (run : RunRecord) (exec : Except String Nat) : ReplayResult :=
  match recover_sql run with
  | none => { status := "error", executed := false, message := some "No SQL found in run record" }
  | some stmt =>
      if !is_read_only stmt then
        { status := "blocked", executed := false,
          message := some "Non-read-only operations cannot be replayed for safety reasons" }
      else
        match exec with
        | .ok _ => { status := "replayed", executed := true }
        | .error e => { status := "error", executed := true, message := some e }

/-- A captured data row: column name to value, in column order. -/
abbrev Row := List (String × String)

/-- The per-table payload of a snapshot file (db/snapshot.py): the
structure dictionary of column name and type pairs, and the data_sample
rows. -/
structure TableInfo where
  cols : List (String × String)
  rows : List Row
deriving DecidableEq, Repr

/-- A snapshot file: its tables mapping, in iteration order. -/
structure Snapshot where
  tables : List (String × TableInfo)
deriving DecidableEq, Repr

/-- The state of the connected database, at the granularity the restore
manipulates: the existing tables with their structure and contents. -/
abbrev DbState := List (String × TableInfo)

/-- One SQL operation issued by rollback_to_snapshot inside its session:
a cascading DROP TABLE IF EXISTS, a CREATE TABLE from a captured
structure, or the parameter-bound bulk INSERT of captured sample rows. -/
inductive RestoreOp where
  | dropT (name : String)
  | createT (name : String) (cols : List (String × String))
  | insertRows (name : String) (rows : List Row)
deriving DecidableEq, Repr

/-- The effect of one restore operation on the database state. -/
def applyOp (s : DbState) : RestoreOp → DbState
  | .dropT n => s.filter (fun e => e.1 != n)
  | .createT n cols => s ++ [(n, ⟨cols, []⟩)]
  | .insertRows n rows =>
      s.map (fun e => if e.1 == n then (e.1, ⟨e.2.cols, e.2.rows ++ rows⟩) else e)

/-- Sequential application of a list of restore operations. -/
def applyAll (ops : List RestoreOp) (s : DbState) : DbState :=
  ops.foldl applyOp s

/-- Execution of a list of operations inside one transaction: the fail
oracle says whether the operation at a given index raises.  The result
is the tentative state reached when every operation succeeded, or an
error at the first failing operation. -/
def runOps (fail : Nat → Bool) : List RestoreOp → Nat → DbState → Except String DbState
  | [], _, s => .ok s
  | op :: rest, i, s₀ =>
      if fail i then .error "operation failed"
      else runOps fail rest (i + 1) (applyOp s₀ op)

/-- DatabaseManager.session in db/database.py: the block's statements run
in one transaction; when the block completes the transaction is
committed and the tentative state becomes the published state, and on
any exception the transaction is rolled back, so the published state is
the state from before the block, and the exception is re-raised. -/
def session_exec (fail : Nat → Bool) (ops : List RestoreOp) (s : DbState) :
    DbState × Except String Unit :=
  match runOps fail ops 0 s with
  | .ok s₁ => (s₁, .ok ())
  | .error e => (s, .error e)

/-- The operations rollback_to_snapshot issues for one table of the
snapshot: unconditionally drop the current table; when the captured
structure is empty the table is skipped with a warning (the source
continues to the next table); otherwise recreate it from the captured
structure and, when the captured sample is non-empty, bulk-insert the
sample rows. -/
def restore_table_ops (e : String × TableInfo) : List RestoreOp :=
  [.dropT e.1] ++
    (if e.2.cols.isEmpty then []
     else [.createT e.1 e.2.cols] ++
       (if e.2.rows.isEmpty then [] else [.insertRows e.1 e.2.rows]))

/-- The full operation list of one restore, in source order: first drop
every current table that is not in the snapshot, then reset every
snapshot table. -/
def restore_ops (snap : Snapshot) (current : DbState) : List RestoreOp :=
  ((current.map Prod.fst).filter
      (fun t => !(snap.tables.map Prod.fst).contains t)).map .dropT
    ++ snap.tables.flatMap restore_table_ops

/-- The fully-restored database state: exactly the snapshot's tables with
their captured structure and sample rows, skipping (dropping) tables
whose captured structure is empty. -/
def full_restore_state (snap : Snapshot) : DbState :=
  snap.tables.filter (fun e => !e.2.cols.isEmpty)

/-- rollback_to_snapshot in db/snapshot.py: refuse without explicit
confirmation; otherwise run every drop, recreate and insert of the
restore inside a single session.  On success the restored state is
committed; on any failure the session rolls the whole restore back and a
fatal RuntimeError is surfaced.  The returned pair is the published
database state and the outcome. -/
def rollback_to_snapshot (snap : Snapshot) (confirm : Bool) (fail : Nat → Bool)
    (current : DbState) : DbState × Except String String :=
  if !confirm then (current, .error "Rollback requires explicit confirmation")
  else
    match session_exec fail (restore_ops snap current) current with
    | (s₁, .ok ()) => (s₁, .ok ("Successfully rolled back to snapshot"))
    | (s₁, .error e) => (s₁, .error ("Failed to rollback: " ++ e))

/-! Concrete inputs used to instantiate the theorems. -/

/-- Parse outcome of INSERT INTO t SELECT star FROM u: the Insert node's
target argument (args: this) is the Table node t and its source argument
(args: expression) is the Select node. -/
def insertFromSelect : SqlExpr := .insert (.table "t") (.select false none)

/-- Parse outcome of UPDATE person SET location_id equal to a scalar
subquery with its own WHERE: the Update node has no where argument of
its own, but a Where node occurs nested inside the subquery, so the
recursive find of exp.Where succeeds. -/
def updateNestedWhereOnly : SqlExpr := .update (some "person") none true

/-- A database evaluator that answers constant literal probes with their
constant and declines everything else. -/
def constEval : Probe → Option Int :=
  fun p => match p with
  | .constSelect m => some (m : Int)
  | _ => none

/-- Environment of a submission whose SQL fails to parse. -/
def envParseFailure : ExecEnv :=
  { parsed := none, dbEval := fun _ => none, rawExec := .ok 0,
    userConfirm := false, snapshotOk := true, ts := "20250101_000000" }

/-- Environment of UPDATE person SET location_id = 999 (no WHERE),
denied at the confirmation gate. -/
def envHighDenied : ExecEnv :=
  { parsed := some (.update (some "person") none false),
    dbEval := fun _ => some 12, rawExec := .ok 1,
    userConfirm := false, snapshotOk := true, ts := "20250101_000000" }

/-- Environment of a literal INSERT, approved by the operator, where
create_snapshot raises (for example the snapshot directory is not
writable): no snapshot file is persisted. -/
def envMediumSnapFail : ExecEnv :=
  { parsed := some (.insert (.table "person") (.valuesNode 1)),
    dbEval := constEval, rawExec := .ok 1,
    userConfirm := true, snapshotOk := false, ts := "20250101_000000" }

/-- Environment of a literal INSERT, approved by the operator, with
snapshot creation succeeding. -/
def envMediumSnapOk : ExecEnv :=
  { parsed := some (.insert (.table "person") (.valuesNode 1)),
    dbEval := constEval, rawExec := .ok 1,
    userConfirm := true, snapshotOk := true, ts := "20250101_000000" }

/-- Stored run record whose statement was DELETE FROM person WHERE id=4. -/
def runRecDelete : RunRecord :=
  { sql := some (some (.delete (some "person") (some "id = 4") false)),
    execution_dag := [] }

/-- Stored run record whose statement was a UNION of two SELECTs: a
read-only set operation whose top-level parsed form is a Union node,
not a Select node. -/
def runRecUnion : RunRecord :=
  { sql := some (some .union), execution_dag := [] }

/-- A snapshot holding one table person with two captured rows. -/
def snapEx : Snapshot :=
  ⟨[("person", ⟨[("id", "INTEGER")], [[("id", "1")], [("id", "2")]]⟩)]⟩

/-- A current database state that differs from the snapshot: person has
diverged and an extra table scratch exists. -/
def dbEx : DbState :=
  [("person", ⟨[("id", "INTEGER")], [[("id", "9")]]⟩),
   ("scratch", ⟨[("x", "TEXT")], []⟩)]

/-- A fail oracle making the third restore operation raise: the restore
fails mid-way, after tables have already been dropped. -/
def failThird : Nat → Bool := fun i => i == 2

/-- The fail oracle of a restore in which every operation succeeds. -/
def noFailure : Nat → Bool := fun _ => false

lemma applyAll_append (a b : List RestoreOp) (s : DbState) :
    applyAll (a ++ b) s = applyAll b (applyAll a s) :=
  List.foldl_append _ _ _ _

lemma applyAll_cons (op : RestoreOp) (ops : List RestoreOp) (s : DbState) :
    applyAll (op :: ops) s = applyAll ops (applyOp s op) := rfl

lemma applyAll_drops (names : List String) (s : DbState) :
    applyAll (names.map .dropT) s = s.filter (fun e => !names.contains e.1) := by
  induction names generalizing s with
  | nil => simp [applyAll]
  | cons n ns ih =>
      rw [List.map_cons, applyAll_cons, ih]
      show (s.filter (fun e => e.1 != n)).filter (fun e => !ns.contains e.1) = _
      rw [List.filter_filter]
      congr 1
      funext e
      simp only [List.contains_cons, Bool.not_or, bne]
      cases e.1 == n <;> cases ns.contains e.1 <;> rfl

lemma filtered_insert_fixed (s : DbState) (n : String) (rows : List Row) :
    (s.filter (fun e => e.1 != n)).map
        (fun e => if e.1 == n then (e.1, TableInfo.mk e.2.cols (e.2.rows ++ rows)) else e)
      = s.filter (fun e => e.1 != n) := by
  have h : ∀ e ∈ s.filter (fun e => e.1 != n),
      (if e.1 == n then (e.1, TableInfo.mk e.2.cols (e.2.rows ++ rows)) else e) = e := by
    intro e he
    rcases List.mem_filter.mp he with ⟨_, hne⟩
    have : (e.1 == n) = false := by
      cases hb : e.1 == n
      · rfl
      · rw [bne, hb] at hne; cases hne
    rw [this]
    rfl
  rw [List.map_congr_left h]
  simp

lemma phase2_spec (ts : List (String × TableInfo)) (s : DbState)
    (h : (ts.map Prod.fst).Nodup) :
    applyAll (ts.flatMap restore_table_ops) s
      = s.filter (fun e => !(ts.map Prod.fst).contains e.1)
          ++ ts.filter (fun e => !e.2.cols.isEmpty) := by
  induction ts generalizing s with
  | nil => simp [applyAll]
  | cons hd rest ih =>
      obtain ⟨n, info⟩ := hd
      rw [List.map_cons, List.nodup_cons] at h
      obtain ⟨hnotin, hrest⟩ := h
      have hcontains : ((rest.map Prod.fst).contains n) = false := by
        cases hc : (rest.map Prod.fst).contains n
        · rfl
        · exact absurd (List.elem_iff.mp hc) hnotin
      rw [List.flatMap_cons, applyAll_append]
      have key : ∀ A : DbState,
          A.filter (fun e => !((n :: rest.map Prod.fst).contains e.1))
            = (A.filter (fun e => e.1 != n)).filter
                (fun e => !(rest.map Prod.fst).contains e.1) := by
        intro A
        rw [List.filter_filter]
        congr 1
        funext e
        simp only [List.contains_cons, Bool.not_or, bne]
        cases e.1 == n <;> cases (rest.map Prod.fst).contains e.1 <;> rfl
      by_cases hcols : info.cols.isEmpty
      · have happly : applyAll (restore_table_ops (n, info)) s
            = s.filter (fun e => e.1 != n) := by
          simp [restore_table_ops, hcols, applyAll, applyOp]
        rw [happly, ih _ hrest, List.map_cons, key s, List.filter_cons]
        have : (!info.cols.isEmpty) = false := by rw [hcols]; rfl
        simp [this]
      · have hmain : applyAll (restore_table_ops (n, info)) s
            = s.filter (fun e => e.1 != n) ++ [(n, info)] := by
          by_cases hrows : info.rows.isEmpty
          · have hr : info.rows = [] := List.isEmpty_iff.mp hrows
            simp only [restore_table_ops, if_neg hcols, if_pos hrows]
            show applyAll [RestoreOp.dropT n, RestoreOp.createT n info.cols] s = _
            simp only [applyAll, List.foldl_cons, List.foldl_nil, applyOp]
            rw [← hr]
          · simp only [restore_table_ops, if_neg hcols, if_neg hrows]
            show applyAll [RestoreOp.dropT n, RestoreOp.createT n info.cols,
                RestoreOp.insertRows n info.rows] s = _
            simp only [applyAll, List.foldl_cons, List.foldl_nil, applyOp]
            rw [List.map_append, filtered_insert_fixed]
            simp
        rw [hmain, ih _ hrest, List.map_cons, key, List.filter_append, List.filter_cons]
        have h1 : ((n : String), info).1 = n := rfl
        have : (!(rest.map Prod.fst).contains (n, info).1) = true := by
          rw [h1, hcontains]; rfl
        rw [this]
        have : (!info.cols.isEmpty) = true := by
          cases hb : info.cols.isEmpty
          · rfl
          · exact absurd hb hcols
        simp only [List.filter_cons, this, if_pos]
        simp [List.append_assoc]

lemma restore_ops_apply (snap : Snapshot) (current : DbState)
    (h : (snap.tables.map Prod.fst).Nodup) :
    applyAll (restore_ops snap current) current = full_restore_state snap := by
  unfold restore_ops
  rw [applyAll_append, applyAll_drops, phase2_spec _ _ h]
  have hnil : ((current.filter (fun e => !((current.map Prod.fst).filter
        (fun t => !(snap.tables.map Prod.fst).contains t)).contains e.1)).filter
        (fun e => !(snap.tables.map Prod.fst).contains e.1)) = [] := by
    rw [List.filter_filter]
    rw [List.filter_eq_nil_iff]
    intro e he
    simp only [Bool.and_eq_true, Bool.not_eq_true'] at *
    intro hcon
    obtain ⟨h1, h2⟩ := hcon
    have hmem : e.1 ∈ (current.map Prod.fst).filter
        (fun t => !(snap.tables.map Prod.fst).contains t) := by
      rw [List.mem_filter]
      refine ⟨List.mem_map.mpr ⟨e, he, rfl⟩, ?_⟩
      rw [h1]; rfl
    have : ((current.map Prod.fst).filter
        (fun t => !(snap.tables.map Prod.fst).contains t)).contains e.1 = true :=
      List.elem_iff.mpr hmem
    rw [this] at h2
    cases h2
  rw [hnil, List.nil_append]
  rfl

lemma runOps_ok (fail : Nat → Bool) (ops : List RestoreOp) (i : Nat) (s s₁ : DbState)
    (h : runOps fail ops i s = .ok s₁) : s₁ = applyAll ops s := by
  induction ops generalizing i s with
  | nil =>
      unfold runOps at h
      cases h
      rfl
  | cons op rest ih =>
      unfold runOps at h
      split at h
      · cases h
      · exact ih _ _ h

/-- C3: rollback_to_snapshot runs every drop, recreate and insert of one
restore inside a single transactional scope: whenever any operation of
the restore raises, the whole restore is rolled back and a fatal error
surfaced, leaving the database exactly in its pre-restore state; when
every operation succeeds, the published state is exactly the
fully-restored state (the snapshot's tables with their captured
structure and sample rows).  A partially-restored mixture is never
published. -/
theorem c3_rollback_atomic (snap : Snapshot) (fail : Nat → Bool) (current : DbState)
    (hnodup : (snap.tables.map Prod.fst).Nodup) :
    (∀ e, (rollback_to_snapshot snap true fail current).2 = .error e →
        (rollback_to_snapshot snap true fail current).1 = current) ∧
    (∀ m, (rollback_to_snapshot snap true fail current).2 = .ok m →
        (rollback_to_snapshot snap true fail current).1 = full_restore_state snap) := by
  unfold rollback_to_snapshot session_exec
  simp only [Bool.not_true, Bool.false_eq_true, if_false]
  cases hro : runOps fail (restore_ops snap current) 0 current with
  | ok s₁ =>
      constructor
      · intro e he
        simp at he
      · intro m _
        have h₁ : s₁ = applyAll (restore_ops snap current) current :=
          runOps_ok fail _ 0 current s₁ hro
        simp only []
        rw [h₁, restore_ops_apply snap current hnodup]
  | error e₀ =>
      constructor
      · intro e _
        rfl
      · intro m hm
        simp at hm

/-- Witness for C3 at concrete inputs: with an oracle that makes the
third restore operation raise, the published state is exactly the
original database; with no failure, it is exactly the fully-restored
snapshot state. -/
theorem c3_witness :
    (rollback_to_snapshot snapEx true failThird dbEx).1 = dbEx ∧
    (rollback_to_snapshot snapEx true noFailure dbEx).1 = full_restore_state snapEx := by
  constructor
  · exact (c3_rollback_atomic snapEx failThird dbEx (by decide)).1
      "Failed to rollback: operation failed" rfl
  · exact (c3_rollback_atomic snapEx noFailure dbEx (by decide)).2
      "Successfully rolled back to snapshot" rfl

/-- C6 (code bug): the spec's escalation rule says a LOW-risk SELECT or
COMMENT with estimated rows above 10000 escalates to MEDIUM, and the
source contains the escalation branch, but it compares the level with
the lowercase string low while the dispatch assigns the uppercase LOW,
so the escalation never fires: at estimated rows 10001 the level stays
LOW, against the claim.  The at-most-10000 half of the claim holds. -/
theorem c6_escalation_never_fires :
    (analyze_risk (.select false none) (some 10001)).risk_level = "LOW" ∧
    (analyze_risk .comment (some 10001)).risk_level = "LOW" ∧
    (analyze_risk (.select false none) (some 10000)).risk_level = "LOW" ∧
    (analyze_risk .comment (some 10000)).risk_level = "LOW" := by
  decide

/-- C7 (code bug): for INSERT INTO t SELECT ... the rewriter is supposed
to wrap the inner SELECT as a counting subquery, but its branch tests
the Insert node's target argument (args: this, always the target table)
instead of its source argument (args: expression, where the SELECT
lives), so the branch never fires: the rewriter declines and the dry-run
estimate is reported unavailable (-1), against the claim. -/
theorem c7_insert_select_estimate_unavailable :
    rewrite_to_count (some insertFromSelect) = none ∧
    run_dry_estimate (some insertFromSelect) (fun _ => some 5) = (-1, none) := by
  decide

/-- C2 counterexample: the claim as stated fails on the code.  The
parse outcome of UPDATE person SET location_id equal to a scalar
subquery carrying its own WHERE has no filtering predicate (the
Analyzer's top-level where extraction yields nothing, and every row of
person is updated), yet analyze_risk classifies it MEDIUM, not the HIGH
the claim requires, because risk_policy searches for a Where node
recursively through the whole tree and finds the subquery's. -/
theorem c2_counterexample :
    has_predicate updateNestedWhereOnly = false ∧
    (analyze_risk updateNestedWhereOnly (some 100)).risk_level = "MEDIUM" := by
  decide

/-- C2 (amended): for UPDATE and DELETE with estimated rows at most
10000, analyze_risk returns HIGH exactly when no Where node occurs
anywhere in the statement (its own where argument and nested subqueries
included), and MEDIUM when one occurs anywhere. -/
theorem c2_update_delete_risk (t : Option String) (w : Option String) (nested : Bool)
    (n : Int) (hn : n ≤ 10000) :
    ((analyze_risk (.update t w nested) (some n)).risk_level
        = if w.isSome || nested then "MEDIUM" else "HIGH") ∧
    ((analyze_risk (.delete t w nested) (some n)).risk_level
        = if w.isSome || nested then "MEDIUM" else "HIGH") := by
  have hgt : ¬ (10000 : Int) < n := by omega
  cases hw : (w.isSome || nested) <;>
    simp [analyze_risk, baseRisk, find_where, hw, hgt]

/-- Witness for C2's amended theorem at concrete inputs: an unfiltered
UPDATE and DELETE are HIGH, filtered ones are MEDIUM. -/
theorem c2_witness :
    (analyze_risk (.update (some "person") none false) (some 12)).risk_level = "HIGH" ∧
    (analyze_risk (.delete (some "person") (some "id = 4") false) (some 1)).risk_level
      = "MEDIUM" := by
  have h₁ := c2_update_delete_risk (some "person") none false 12 (by decide)
  have h₂ := c2_update_delete_risk (some "person") (some "id = 4") false 1 (by decide)
  exact ⟨h₁.1, h₂.2⟩

/-- C8: for an INSERT with literal VALUES rows, the rewriter synthesizes
a constant-count probe carrying exactly the literal row count, the probe
references no table at all, and against any database driver that answers
a constant literal select with its constant, the dry-run estimate equals
the literal row count. -/
theorem c8_insert_values_estimate (target : SqlExpr) (n : Nat)
    (dbEval : Probe → Option Int)
    (hconst : ∀ m : Nat, dbEval (.constSelect m) = some (m : Int)) :
    rewrite_to_count (some (.insert target (.valuesNode n))) = some (.constSelect n) ∧
    Probe.touchesTable (.constSelect n) = false ∧
    run_dry_estimate (some (.insert target (.valuesNode n))) dbEval
      = ((n : Int), some (.constSelect n)) := by
  refine ⟨rfl, rfl, ?_⟩
  simp [run_dry_estimate, rewrite_to_count, hconst n]

/-- Witness for C8 at the spec's scenario: INSERT INTO t VALUES two
literal rows yields estimated rows 2 from a table-free probe. -/
theorem c8_witness :
    run_dry_estimate (some (.insert (.table "t") (.valuesNode 2))) constEval
      = ((2 : Int), some (.constSelect 2)) ∧
    Probe.touchesTable (.constSelect 2) = false := by
  have h := c8_insert_values_estimate (.table "t") 2 constEval (fun m => rfl)
  exact ⟨h.2.2, h.2.1⟩

lemma is_read_only_true_iff (s : Stmt) :
    is_read_only s = true ↔ ∃ h w, s = some (.select h w) := by
  cases s with
  | none => simp [is_read_only]
  | some e => cases e <;> simp [is_read_only]

/-- C5: for every recorded run whose recovered statement is not a pure
SELECT, replay returns status blocked and does not re-execute the
statement; and a re-execution happens only when the recovered statement
parses to a plain Select node. -/
theorem c5_replay_blocks_non_select (run : RunRecord) (exec : Except String Nat)
    (stmt : Stmt) (hrec : recover_sql run = some stmt) :
    ((∀ h w, stmt ≠ some (.select h w)) →
        (replay run exec).status = "blocked" ∧ (replay run exec).executed = false) ∧
    ((replay run exec).executed = true → ∃ h w, stmt = some (.select h w)) := by
  have hrp : replay run exec =
      (if !is_read_only stmt then
        { status := "blocked", executed := false,
          message := some "Non-read-only operations cannot be replayed for safety reasons" }
      else
        match exec with
        | .ok _ => { status := "replayed", executed := true }
        | .error e => { status := "error", executed := true, message := some e }) := by
    unfold replay
    rw [hrec]
  cases hro : is_read_only stmt with
  | false =>
      rw [hro] at hrp
      simp only [Bool.not_false, if_true] at hrp
      rw [hrp]
      exact ⟨fun _ => ⟨rfl, rfl⟩, fun hx => by simp at hx⟩
  | true =>
      obtain ⟨h, w, hs⟩ := (is_read_only_true_iff stmt).mp hro
      constructor
      · intro hns
        exact absurd hs (hns h w)
      · intro _
        exact ⟨h, w, hs⟩

/-- Witness for C5 at the spec's scenario: replaying a run whose
original statement was DELETE FROM person WHERE id equal 4 is blocked
and nothing is re-executed. -/
theorem c5_witness :
    (replay runRecDelete (.ok 3)).status = "blocked" ∧
    (replay runRecDelete (.ok 3)).executed = false := by
  refine (c5_replay_blocks_non_select runRecDelete (.ok 3)
      (some (.delete (some "person") (some "id = 4") false)) rfl).1 ?_
  intro h w hc
  simp at hc

/-- C10: the read-only check used by replay is total and conservative.
is_read_only is a total function (every parser exception is caught); it
returns false for every input that fails to parse and for every
statement whose top-level parsed form is not a plain Select node; in
particular replay blocks a read-only set-operation query such as a
UNION of SELECTs, whose parsed form is a Union node. -/
theorem c10_read_only_conservative :
    is_read_only none = false ∧
    (∀ e : SqlExpr, (∀ h w, e ≠ .select h w) → is_read_only (some e) = false) ∧
    (∀ (run : RunRecord) (exec : Except String Nat),
        recover_sql run = some (some .union) →
        (replay run exec).status = "blocked" ∧ (replay run exec).executed = false) := by
  refine ⟨rfl, ?_, ?_⟩
  · intro e he
    cases e <;> first | rfl | exact absurd rfl (he _ _)
  · intro run exec hrec
    unfold replay
    rw [hrec]
    exact ⟨rfl, rfl⟩

/-- Witness for C10 at concrete inputs: a UNION of SELECTs is not
accepted by is_read_only and its replay is blocked. -/
theorem c10_witness :
    is_read_only (some .union) = false ∧
    (replay runRecUnion (.ok 0)).status = "blocked" := by
  refine ⟨c10_read_only_conservative.2.1 .union ?_,
    (c10_read_only_conservative.2.2 runRecUnion (.ok 0) rfl).1⟩
  intro h w hc
  cases hc

lemma raw_not_mem_dryCalls (env : ExecEnv) : DbCall.raw ∉ dryCalls env := by
  unfold dryCalls
  cases (run_dry_estimate env.parsed env.dbEval).2 <;> simp

/-- C1: whenever the pipeline's risk assessment yields UNKNOWN (in
either spelling the source produces: the uppercase default of a parse
failure and the lowercase level of an unrecognized node), the raw
statement is never issued against the database (no run_sql call on the
raw SQL occurs), the refusal reason is recorded as an audit step, and no
snapshot is referenced. -/
theorem c1_unknown_never_executes (env : ExecEnv) (store0 : List String)
    (h : (execute_sql_with_safety env store0).risk = "UNKNOWN" ∨
         (execute_sql_with_safety env store0).risk = "unknown") :
    DbCall.raw ∉ (execute_sql_with_safety env store0).calls ∧
    refusedStep ∈ (execute_sql_with_safety env store0).audit_steps ∧
    (execute_sql_with_safety env store0).snapshot_id = none := by
  unfold execute_sql_with_safety at h ⊢
  by_cases h1 : (computeRiskInfo env).risk_level = "LOW"
      ∨ (computeRiskInfo env).risk_level = "INFO"
  · rw [if_pos h1] at h
    exfalso
    rcases h1 with h1 | h1 <;> rcases h with h | h <;> rw [h1] at h <;> simp at h
  · rw [if_neg h1] at h ⊢
    by_cases h2 : (computeRiskInfo env).risk_level = "UNKNOWN"
        ∨ (computeRiskInfo env).risk_level = "unknown"
    · rw [if_pos h2]
      exact ⟨raw_not_mem_dryCalls env, by simp, rfl⟩
    · rw [if_neg h2] at h
      by_cases h3 : env.userConfirm = false
      · rw [if_pos h3] at h
        exact absurd h h2
      · rw [if_neg h3] at h
        exact absurd h h2

/-- Witness for C1 at a concrete input: a submission whose SQL fails to
parse is refused, never executed, and carries no snapshot id. -/
theorem c1_witness :
    DbCall.raw ∉ (execute_sql_with_safety envParseFailure []).calls ∧
    refusedStep ∈ (execute_sql_with_safety envParseFailure []).audit_steps ∧
    (execute_sql_with_safety envParseFailure []).snapshot_id = none :=
  c1_unknown_never_executes envParseFailure [] (Or.inl (by decide))

/-- C9: for a statement whose risk level requires confirmation (MEDIUM,
HIGH or CRITICAL), when the operator denies confirmation the run records
a cancelled User_confirmation step, no create_snapshot step occurs, the
snapshot store is untouched, no snapshot id is recorded, and the raw
statement is never executed against the database. -/
theorem c9_denial_cancels (env : ExecEnv) (store0 : List String)
    (hconf : env.userConfirm = false)
    (hr : (execute_sql_with_safety env store0).risk = "MEDIUM" ∨
          (execute_sql_with_safety env store0).risk = "HIGH" ∨
          (execute_sql_with_safety env store0).risk = "CRITICAL") :
    cancelStep ∈ (execute_sql_with_safety env store0).audit_steps ∧
    (∀ s ∈ (execute_sql_with_safety env store0).audit_steps,
        s.action ≠ "create_snapshot") ∧
    (execute_sql_with_safety env store0).snapshot_id = none ∧
    (execute_sql_with_safety env store0).store = store0 ∧
    DbCall.raw ∉ (execute_sql_with_safety env store0).calls := by
  unfold execute_sql_with_safety at hr ⊢
  by_cases h1 : (computeRiskInfo env).risk_level = "LOW"
      ∨ (computeRiskInfo env).risk_level = "INFO"
  · rw [if_pos h1] at hr
    exfalso
    rcases h1 with h1 | h1 <;> rcases hr with h | h | h <;> rw [h1] at h <;> simp at h
  · rw [if_neg h1] at hr ⊢
    by_cases h2 : (computeRiskInfo env).risk_level = "UNKNOWN"
        ∨ (computeRiskInfo env).risk_level = "unknown"
    · rw [if_pos h2] at hr
      exfalso
      rcases h2 with h2 | h2 <;> rcases hr with h | h | h <;> rw [h2] at h <;> simp at h
    · rw [if_neg h2] at hr ⊢
      rw [if_pos hconf]
      refine ⟨by simp, ?_, rfl, rfl, raw_not_mem_dryCalls env⟩
      show ∀ s ∈ [precheckStep, dryStep, riskStep] ++ [cancelStep],
          s.action ≠ "create_snapshot"
      decide

/-- Witness for C9 at the spec's scenario: UPDATE person SET
location_id equal 999 with no WHERE is HIGH; on denial the run is
cancelled, nothing is snapshotted and nothing is executed. -/
theorem c9_witness :
    cancelStep ∈ (execute_sql_with_safety envHighDenied []).audit_steps ∧
    (∀ s ∈ (execute_sql_with_safety envHighDenied []).audit_steps,
        s.action ≠ "create_snapshot") ∧
    (execute_sql_with_safety envHighDenied []).snapshot_id = none ∧
    (execute_sql_with_safety envHighDenied []).store = [] ∧
    DbCall.raw ∉ (execute_sql_with_safety envHighDenied []).calls :=
  c9_denial_cancels envHighDenied [] rfl (Or.inr (Or.inl (by decide)))

/-- C4 counterexample: the claim as stated fails on the code.  With an
approved MEDIUM statement whose snapshot creation raises (so no snapshot
file is persisted and the store stays empty), the completed run still
carries the generated snapshot id, because create_snapshot_for_operation
swallows the failure and returns the id anyway. -/
theorem c4_counterexample :
    (execute_sql_with_safety envMediumSnapFail []).snapshot_id
        = some "SNAPSHOT_20250101_000000" ∧
    "SNAPSHOT_20250101_000000" ∉ (execute_sql_with_safety envMediumSnapFail []).store := by
  decide

/-- C4 (amended): for every completed run carrying a snapshot id, the id
is the one create_snapshot_for_operation generated, and the
create_snapshot step precedes the execute step; when snapshot creation
succeeded the snapshot with that id exists in the store; but when
snapshot creation failed the run still carries the id even though no
snapshot was persisted. -/
theorem c4_snapshot_reference (env : ExecEnv) (store0 : List String)
    (hconf : env.userConfirm = true)
    (hr : (execute_sql_with_safety env store0).risk = "MEDIUM" ∨
          (execute_sql_with_safety env store0).risk = "HIGH" ∨
          (execute_sql_with_safety env store0).risk = "CRITICAL") :
    (execute_sql_with_safety env store0).snapshot_id = some (genSnapshotId env.ts) ∧
    (env.snapshotOk = true →
        genSnapshotId env.ts ∈ (execute_sql_with_safety env store0).store) ∧
    (env.snapshotOk = false →
        (execute_sql_with_safety env store0).store = store0) ∧
    (execute_sql_with_safety env store0).audit_steps.map Step.action
      = ["precheck", "dry_run", "analyze_risk", "User_confirmation",
         "create_snapshot", "execute_sql"] := by
  unfold execute_sql_with_safety at hr ⊢
  by_cases h1 : (computeRiskInfo env).risk_level = "LOW"
      ∨ (computeRiskInfo env).risk_level = "INFO"
  · rw [if_pos h1] at hr
    exfalso
    rcases h1 with h1 | h1 <;> rcases hr with h | h | h <;> rw [h1] at h <;> simp at h
  · rw [if_neg h1] at hr ⊢
    by_cases h2 : (computeRiskInfo env).risk_level = "UNKNOWN"
        ∨ (computeRiskInfo env).risk_level = "unknown"
    · rw [if_pos h2] at hr
      exfalso
      rcases h2 with h2 | h2 <;> rcases hr with h | h | h <;> rw [h2] at h <;> simp at h
    · have h3 : ¬ env.userConfirm = false := by
        rw [hconf]
        simp
      rw [if_neg h2, if_neg h3]
      cases hsnap : env.snapshotOk with
      | true =>
          refine ⟨?_, fun _ => ?_, fun hx => ?_, rfl⟩
          · show some (create_snapshot_for_operation true env.ts store0).1 = _
            rfl
          · show genSnapshotId env.ts ∈ (create_snapshot_for_operation true env.ts store0).2
            simp [create_snapshot_for_operation]
          · cases hx
      | false =>
          refine ⟨?_, fun hx => ?_, fun _ => ?_, rfl⟩
          · show some (create_snapshot_for_operation false env.ts store0).1 = _
            rfl
          · cases hx
          · show (create_snapshot_for_operation false env.ts store0).2 = store0
            rfl

/-- Witness for C4's amended theorem at a concrete input: an approved
MEDIUM statement with snapshot creation succeeding records the generated
snapshot id, the id is in the store, and the create_snapshot step comes
before the execute step. -/
theorem c4_witness :
    (execute_sql_with_safety envMediumSnapOk []).snapshot_id
        = some (genSnapshotId "20250101_000000") ∧
    genSnapshotId "20250101_000000" ∈ (execute_sql_with_safety envMediumSnapOk []).store ∧
    (execute_sql_with_safety envMediumSnapOk []).audit_steps.map Step.action
      = ["precheck", "dry_run", "analyze_risk", "User_confirmation",
         "create_snapshot", "execute_sql"] := by
  have h := c4_snapshot_reference envMediumSnapOk [] rfl (Or.inl (by decide))
  exact ⟨h.1, h.2.1 rfl, h.2.2.2⟩

end DbSafeLayer
